import Mathlib

/-!
Verification of the job-matching subsystem of an AI resume-builder service.

The development shallowly embeds the two matcher modules:

* app/job_matcher.py       : text preprocessing, TF-IDF lexical scoring,
                             overlapping-keyword extraction, missing-keyword
                             extraction;
* app/semantic_matcher.py  : embedding-based semantic scoring and the hybrid
                             scorer combining both engines.

Design of the embedding:

* Strings and token lists are modelled computably, so vocabulary construction,
  token counts and document frequencies evaluate inside the kernel.
* Floating-point numbers are modelled as real numbers.  TF-IDF weights use
  Real.log exactly as the library computes natural logarithms; rounding to two
  decimal places is modelled with the integer rounding function on reals (the
  Python float round uses round-half-to-even on binary floats; the claims
  settled here do not depend on midpoint behaviour).
* The sentence-embedding backend is an arbitrary function from strings to dense
  real vectors, passed as a parameter; the number-to-string formatting used in
  f-strings is likewise a function parameter.
* The vectorizer's ValueError on an empty vocabulary and the embedding-model
  load failure are modelled with Except in dedicated variants of the matchers.
-/

/-! ## Text preprocessing (job_matcher._preprocess) -/

/-- ASCII lowercasing of one character, matching what Python str.lower does on
the ASCII range.  Characters outside A-Z are returned unchanged; any non-ASCII
letter is later replaced by a space by the regex step, in the model exactly as
in the source. -/
def pyLower (c : Char) : Char :=
  if 'A' ≤ c ∧ c ≤ 'Z' then Char.ofNat (c.toNat + 32) else c

/-- The characters matched by the regex class backslash-s on ASCII text. -/
def isSpaceChar (c : Char) : Bool :=
  c = ' ' || c = '\t' || c = '\n' || c = '\x0b' || c = '\x0c' || c = '\r'

/-- One step of the substitution re.sub of the class of characters that are
not a lowercase letter, a digit or whitespace, replaced by a single space. -/
def keepChar (c : Char) : Char :=
  if ('a' ≤ c ∧ c ≤ 'z') ∨ ('0' ≤ c ∧ c ≤ '9') ∨ isSpaceChar c = true then c else ' '

/-- Maximal runs of non-whitespace characters, in order.  The accumulator holds
the current run reversed. -/
def wordsAux : List Char → List Char → List (List Char)
  | [], acc => if acc.isEmpty then [] else [acc.reverse]
  | c :: cs, acc =>
    if isSpaceChar c then
      if acc.isEmpty then wordsAux cs [] else acc.reverse :: wordsAux cs []
    else wordsAux cs (c :: acc)

/-- job_matcher._preprocess: lowercase, replace every character that is not a
lowercase letter, digit or whitespace by a space, collapse whitespace runs to
one space and strip the ends.  Collapsing and stripping are realised by
splitting into maximal non-space runs and rejoining with single spaces. -/
def _preprocess (text : String) : String :=
  String.intercalate " "
    ((wordsAux ((text.data.map pyLower).map keepChar) []).map (fun w => String.mk w))

/-! ## Tokenization and n-grams (scikit-learn CountVectorizer with the default
token pattern: word runs of length at least two, then English stop-word
removal, then bigrams over the remaining tokens) -/

/-- Tokens of an already-preprocessed string: the vectorizer's default token
pattern keeps maximal word-character runs of length at least two; preprocessed
text contains only lowercase letters, digits and single spaces, so these runs
are the space-separated words. -/
def _tokenize (clean : String) : List String :=
  ((wordsAux clean.data []).map String.mk).filter (fun t => 2 ≤ t.length)

/-- The scikit-learn built-in English stop-word list used by
TfidfVectorizer with the english stop-words option. -/
def ENGLISH_STOP_WORDS : List String :=
  ["a", "about", "above", "across", "after", "afterwards", "again", "against",
   "all", "almost", "alone", "along", "already", "also", "although", "always",
   "am", "among", "amongst", "amoungst", "amount", "an", "and", "another",
   "any", "anyhow", "anyone", "anything", "anyway", "anywhere", "are",
   "around", "as", "at", "back", "be", "became", "because", "become",
   "becomes", "becoming", "been", "before", "beforehand", "behind", "being",
   "below", "beside", "besides", "between", "beyond", "bill", "both",
   "bottom", "but", "by", "call", "can", "cannot", "cant", "co", "con",
   "could", "couldnt", "cry", "de", "describe", "detail", "do", "done",
   "down", "due", "during", "each", "eg", "eight", "either", "eleven",
   "else", "elsewhere", "empty", "enough", "etc", "even", "ever", "every",
   "everyone", "everything", "everywhere", "except", "few", "fifteen",
   "fifty", "fill", "find", "fire", "first", "five", "for", "former",
   "formerly", "forty", "found", "four", "from", "front", "full", "further",
   "get", "give", "go", "had", "has", "hasnt", "have", "he", "hence", "her",
   "here", "hereafter", "hereby", "herein", "hereupon", "hers", "herself",
   "him", "himself", "his", "how", "however", "hundred", "i", "ie", "if",
   "in", "inc", "indeed", "interest", "into", "is", "it", "its", "itself",
   "keep", "last", "latter", "latterly", "least", "less", "ltd", "made",
   "many", "may", "me", "meanwhile", "might", "mill", "mine", "more",
   "moreover", "most", "mostly", "move", "much", "must", "my", "myself",
   "name", "namely", "neither", "never", "nevertheless", "next", "nine",
   "no", "nobody", "none", "noone", "nor", "not", "nothing", "now",
   "nowhere", "of", "off", "often", "on", "once", "one", "only", "onto",
   "or", "other", "others", "otherwise", "our", "ours", "ourselves", "out",
   "over", "own", "part", "per", "perhaps", "please", "put", "rather", "re",
   "same", "see", "seem", "seemed", "seeming", "seems", "serious", "several",
   "she", "should", "show", "side", "since", "sincere", "six", "sixty", "so",
   "some", "somehow", "someone", "something", "sometime", "sometimes",
   "somewhere", "still", "such", "system", "take", "ten", "than", "that",
   "the", "their", "them", "themselves", "then", "thence", "there",
   "thereafter", "thereby", "therefore", "therein", "thereupon", "these",
   "they", "thick", "thin", "third", "this", "those", "though", "three",
   "through", "throughout", "thru", "thus", "to", "together", "too", "top",
   "toward", "towards", "twelve", "twenty", "two", "un", "under", "until",
   "up", "upon", "us", "very", "via", "was", "we", "well", "were", "what",
   "whatever", "when", "whence", "whenever", "where", "whereafter",
   "whereas", "whereby", "wherein", "whereupon", "wherever", "whether",
   "which", "while", "whither", "who", "whoever", "whole", "whom", "whose",
   "why", "will", "with", "within", "without", "would", "yet", "you",
   "your", "yours", "yourself", "yourselves"]

/-- Stop-word removal, applied to unigram tokens before n-gram construction,
as the vectorizer does. -/
def removeStopWords (ts : List String) : List String :=
  ts.filter (fun t => !(ENGLISH_STOP_WORDS.contains t))

/-- Bigrams over consecutive remaining tokens, joined with one space. -/
def bigrams : List String → List String
  | a :: b :: rest => (a ++ " " ++ b) :: bigrams (b :: rest)
  | _ => []

/-- All terms of one preprocessed document under the (1,2) n-gram range:
stop-filtered unigrams followed by their bigrams. -/
def docTerms (clean : String) : List String :=
  removeStopWords (_tokenize clean) ++ bigrams (removeStopWords (_tokenize clean))

/-- Number of occurrences of a term in a document's term list. -/
def termCount (t : String) (terms : List String) : ℕ := terms.count t

/-! ## Vocabulary construction -/

/-- Byte-lexicographic comparison of character lists. -/
def charListLe : List Char → List Char → Bool
  | [], _ => true
  | _ :: _, [] => false
  | a :: as, b :: bs => if a < b then true else if b < a then false else charListLe as bs

/-- Lexicographic string order used for the vectorizer's alphabetically sorted
feature names. -/
def strLe (a b : String) : Bool := charListLe a.data b.data

/-- Alphabetic sort of a term list. -/
def sortVocab (l : List String) : List String :=
  List.insertionSort (fun a b => strLe a b = true) l

/-- The max-features cap: keep the whole vocabulary when it is small enough,
otherwise the top-k terms by corpus frequency (ties here by term order; the
library breaks frequency ties by an unstable argsort and then re-sorts the
kept terms alphabetically, which the final alphabetic sort reproduces). -/
def limitFeatures (k : ℕ) (vocab : List String) (tfreq : String → ℕ) : List String :=
  if vocab.length ≤ k then vocab
  else sortVocab ((List.insertionSort
    (fun a b => tfreq b < tfreq a ∨ (tfreq a = tfreq b ∧ strLe a b = true)) vocab).take k)

/-- The fitted vocabulary of the two-document corpus: all distinct terms of
both documents, alphabetically sorted, capped at k features by corpus
frequency.  It is empty exactly when neither document has any term, the
condition under which fit_transform raises its empty-vocabulary ValueError. -/
def buildVocab (k : ℕ) (t1 t2 : List String) : List String :=
  limitFeatures k (sortVocab (t1 ++ t2).dedup) (fun t => termCount t t1 + termCount t t2)

open scoped Classical

/-! ## TF-IDF weights, document vectors and cosine similarity -/

/-- Term-frequency weight of a raw count.  With sublinear scaling the library
replaces a nonzero count c by 1 + ln c; entries with count zero stay zero. -/
noncomputable def tfWeight (sublinear : Bool) (c : ℕ) : ℝ :=
  if c = 0 then 0 else if sublinear then 1 + Real.log c else c

/-- Smoothed inverse document frequency for the fixed two-document corpus:
ln((1 + n) / (1 + df)) + 1 with n = 2 documents. -/
noncomputable def idf (df : ℕ) : ℝ := Real.log (3 / (1 + (df : ℝ))) + 1

/-- Document frequency of a term over the two documents. -/
def docFreq (t : String) (t1 t2 : List String) : ℕ :=
  (if 0 < termCount t t1 then 1 else 0) + (if 0 < termCount t t2 then 1 else 0)

/-- Unnormalized TF-IDF weight of one term for one document of the corpus. -/
noncomputable def tfidfRaw (sublinear : Bool) (own t1 t2 : List String) (t : String) : ℝ :=
  tfWeight sublinear (termCount t own) * idf (docFreq t t1 t2)

/-- Row of the TF-IDF matrix before l2 normalization: the weights of one
document (term list own) over the fitted vocabulary of the corpus (t1, t2)
capped at k features. -/
noncomputable def docVector (sublinear : Bool) (k : ℕ) (own t1 t2 : List String) : List ℝ :=
  (buildVocab k t1 t2).map (tfidfRaw sublinear own t1 t2)

/-- Sum of squared entries. -/
noncomputable def sumsq (v : List ℝ) : ℝ := (v.map (fun x => x ^ 2)).sum

/-- Dot product of two rows. -/
noncomputable def dotList (u v : List ℝ) : ℝ := (List.zipWith (fun x y => x * y) u v).sum

/-- l2 row normalization; as in the library's normalize, an all-zero row is
left unchanged. -/
noncomputable def l2normalize (v : List ℝ) : List ℝ :=
  if sumsq v = 0 then v else v.map (fun x => x / Real.sqrt (sumsq v))

/-- Cosine similarity of two rows: the dot product of the l2-normalized rows.
Composing the vectorizer's row normalization with cosine_similarity gives
exactly this value on the raw rows, since normalization is idempotent and
zero rows stay zero. -/
noncomputable def cosineSim (u v : List ℝ) : ℝ := dotList (l2normalize u) (l2normalize v)

/-- The matrix entry read back for one term of one document: the raw weight
divided by the document row's l2 norm (rows with zero norm stay as they are).
This is what the keyword functions compare against zero. -/
noncomputable def normWeight (sublinear : Bool) (k : ℕ) (own t1 t2 : List String) (t : String) : ℝ :=
  if sumsq (docVector sublinear k own t1 t2) = 0 then tfidfRaw sublinear own t1 t2 t
  else tfidfRaw sublinear own t1 t2 t / Real.sqrt (sumsq (docVector sublinear k own t1 t2))

/-- Rounding to two decimal places, as Python round(x, 2).  Midpoints differ:
Python rounds the underlying binary float half to even, the model rounds half
up; no claim settled here depends on a midpoint. -/
noncomputable def round2 (x : ℝ) : ℝ := (round (x * 100) : ℤ) / 100

/-! ## Result records (section 3 of the design: MatchResult, SemanticResult,
HybridResult) -/

/-- The lexical matcher's result record. -/
structure MatchResult where
  score : ℝ
  top_keywords : List String
  analysis : String

/-- The semantic matcher's result record. -/
structure SemanticResult where
  semantic_score : ℝ
  embedding_distance : ℝ

/-- The hybrid matcher's result record. -/
structure HybridResult where
  score : ℝ
  semantic_score : ℝ
  keyword_score : ℝ
  top_keywords : List String
  analysis : String

/-! ## The lexical matcher (job_matcher.calculate_match_score) -/

/-- The four-tier analysis string of the lexical matcher, inlined in the
source after the score computation; fmt renders the float exactly as the
f-string interpolation of the score does. -/
noncomputable def lexicalAnalysis (fmt : ℝ → String) (score : ℝ) : String :=
  if 80 ≤ score then
    "Excellent match (" ++ fmt score ++ "%)! Your resume aligns strongly with the job requirements. Fine-tune specific metrics and achievements."
  else if 60 ≤ score then
    "Good match (" ++ fmt score ++ "%). Your resume covers many requirements. Consider adding missing keywords and quantifiable results."
  else if 40 ≤ score then
    "Moderate match (" ++ fmt score ++ "%). There are notable gaps. Focus on incorporating more job-specific terminology and relevant experience."
  else
    "Low match (" ++ fmt score ++ "%). Significant gaps exist between your resume and the job description. Consider tailoring your resume specifically for this role."

/-- job_matcher._extract_top_keywords: over a fresh 500-feature linear-tf
vector space on the already-preprocessed texts, the terms with positive weight
in both documents, ranked by the sum of the two weights descending (Python's
stable descending sort keeps vocabulary order on ties), truncated to top_n. -/
noncomputable def _extract_top_keywords (resume_text job_description : String) (top_n : ℕ) : List String :=
  let tr := docTerms resume_text
  let tj := docTerms job_description
  let feature_names := buildVocab 500 tr tj
  let resume_scores := normWeight false 500 tr tr tj
  let job_scores := normWeight false 500 tj tr tj
  let common := feature_names.filter (fun w => decide (0 < resume_scores w ∧ 0 < job_scores w))
  (List.insertionSort
    (fun a b => resume_scores b + job_scores b ≤ resume_scores a + job_scores a) common).take top_n

/-- job_matcher.calculate_match_score.  Python's truthiness test on the inputs
short-circuits exactly on the empty string; the vectorizer's ValueError fires
exactly when the fitted vocabulary is empty. -/
noncomputable def calculate_match_score (fmt : ℝ → String) (resume_text job_description : String) : MatchResult :=
  if resume_text = "" ∨ job_description = "" then
    ⟨0, [], "Insufficient text provided for analysis."⟩
  else
    let clean_resume := _preprocess resume_text
    let clean_job := _preprocess job_description
    let tr := docTerms clean_resume
    let tj := docTerms clean_job
    if buildVocab 1000 tr tj = [] then
      ⟨0, [], "Could not extract meaningful content for comparison."⟩
    else
      let similarity := cosineSim (docVector true 1000 tr tr tj) (docVector true 1000 tj tr tj)
      let score := min (round2 (similarity * 100)) 100
      ⟨score, _extract_top_keywords clean_resume clean_job 10, lexicalAnalysis fmt score⟩

/-- job_matcher.get_missing_keywords: over a fresh 500-feature linear-tf
vector space, the terms with weight zero in the resume row and positive weight
in the job row, ranked by job weight descending, truncated to top_n; the
empty-vocabulary ValueError is caught and yields the empty list. -/
noncomputable def get_missing_keywords (resume_text job_description : String) (top_n : ℕ) : List String :=
  let clean_resume := _preprocess resume_text
  let clean_job := _preprocess job_description
  let tr := docTerms clean_resume
  let tj := docTerms clean_job
  let feature_names := buildVocab 500 tr tj
  if feature_names = [] then []
  else
    let resume_scores := normWeight false 500 tr tr tj
    let job_scores := normWeight false 500 tj tr tj
    let missing := feature_names.filter (fun w => decide (resume_scores w = 0 ∧ 0 < job_scores w))
    (List.insertionSort (fun a b => job_scores b ≤ job_scores a) missing).take top_n

/-! ## The semantic matcher (semantic_matcher.calculate_semantic_match) -/

/-- semantic_matcher.calculate_semantic_match, with the sentence-embedding
model abstracted as the function encode from raw text to a dense vector.
Only the upper bound of the score is clamped, exactly as in the source. -/
noncomputable def calculate_semantic_match (encode : String → List ℝ) (resume_text job_description : String) : SemanticResult :=
  if resume_text = "" ∨ job_description = "" then ⟨0, 1⟩
  else
    let similarity := cosineSim (encode resume_text) (encode job_description)
    ⟨min (similarity * 100) 100, 1 - similarity⟩

/-! ## The hybrid scorer (semantic_matcher.calculate_hybrid_match_score) -/

/-- The four-tier analysis string of the hybrid scorer, selected on the raw
(pre-rounding) hybrid score and embedding the raw semantic and the lexical
sub-scores, with fmt standing for the .1f float formatting. -/
noncomputable def hybridAnalysis (fmt : ℝ → String) (hybrid_score semantic_score keyword_score : ℝ) : String :=
  if 80 ≤ hybrid_score then
    "Excellent match (" ++ fmt hybrid_score ++ "%)! Strong semantic alignment (semantic: " ++ fmt semantic_score ++ "%, keywords: " ++ fmt keyword_score ++ "%). Your resume aligns well with the job requirements."
  else if 60 ≤ hybrid_score then
    "Good match (" ++ fmt hybrid_score ++ "%). Semantic similarity: " ++ fmt semantic_score ++ "%, Keyword overlap: " ++ fmt keyword_score ++ "%. Consider adding more relevant keywords to improve further."
  else if 40 ≤ hybrid_score then
    "Moderate match (" ++ fmt hybrid_score ++ "%). Semantic: " ++ fmt semantic_score ++ "%, Keywords: " ++ fmt keyword_score ++ "%. Focus on incorporating more job-specific terminology and relevant experience."
  else
    "Low match (" ++ fmt hybrid_score ++ "%). Significant gaps exist. Consider tailoring your resume more closely to the job description with relevant keywords and context."

/-- semantic_matcher.calculate_hybrid_match_score: both engines on the raw
texts, the fixed 60/40 blend, tier analysis on the raw blended score, and the
rounded scores plus the lexical engine's keywords in the record. -/
noncomputable def calculate_hybrid_match_score (encode : String → List ℝ)
    (fmtL fmtH : ℝ → String) (resume_text job_description : String) : HybridResult :=
  let semantic := calculate_semantic_match encode resume_text job_description
  let tfidf := calculate_match_score fmtL resume_text job_description
  let hybrid_score := semantic.semantic_score * 0.6 + tfidf.score * 0.4
  ⟨round2 hybrid_score, round2 semantic.semantic_score, round2 tfidf.score,
    tfidf.top_keywords, hybridAnalysis fmtH hybrid_score semantic.semantic_score tfidf.score⟩

/-! ## Failure-aware variants: the vectorizer's ValueError and the embedding
model's load failure, as Except -/

/-- The only vectorization failure of this pipeline: fit_transform's
ValueError on an empty vocabulary. -/
inductive VectorizeError
  | emptyVocabulary
deriving DecidableEq

/-- fit_transform on the two-document corpus: fails exactly when the fitted
vocabulary is empty, otherwise returns the fitted feature names. -/
def fit_transformE (k : ℕ) (t1 t2 : List String) : Except VectorizeError (List String) :=
  if buildVocab k t1 t2 = [] then .error .emptyVocabulary else .ok (buildVocab k t1 t2)

/-- _extract_top_keywords with its unguarded fit_transform made explicit: the
source has no try/except here, so an empty 500-feature vocabulary would
propagate a ValueError to the caller. -/
noncomputable def _extract_top_keywordsE (resume_text job_description : String) (top_n : ℕ) :
    Except VectorizeError (List String) :=
  match fit_transformE 500 (docTerms resume_text) (docTerms job_description) with
  | .error e => .error e
  | .ok _ => .ok (_extract_top_keywords resume_text job_description top_n)

/-- calculate_match_score with both vectorization calls explicit: the first
fit_transform is wrapped in try/except ValueError, the keyword extraction is
not, exactly as in the source. -/
noncomputable def calculate_match_scoreE (fmt : ℝ → String) (resume_text job_description : String) :
    Except VectorizeError MatchResult :=
  if resume_text = "" ∨ job_description = "" then
    .ok ⟨0, [], "Insufficient text provided for analysis."⟩
  else
    let clean_resume := _preprocess resume_text
    let clean_job := _preprocess job_description
    let tr := docTerms clean_resume
    let tj := docTerms clean_job
    match fit_transformE 1000 tr tj with
    | .error _ => .ok ⟨0, [], "Could not extract meaningful content for comparison."⟩
    | .ok _ =>
      let similarity := cosineSim (docVector true 1000 tr tr tj) (docVector true 1000 tj tr tj)
      let score := min (round2 (similarity * 100)) 100
      match _extract_top_keywordsE clean_resume clean_job 10 with
      | .error e => .error e
      | .ok top_keywords => .ok ⟨score, top_keywords, lexicalAnalysis fmt score⟩

/-- Failure of the one-time sentence-transformer model load. -/
inductive ModelError
  | loadFailure
deriving DecidableEq

/-- calculate_semantic_match with the lazy model load made explicit: empty
input short-circuits before the load; otherwise a failed load propagates. -/
noncomputable def calculate_semantic_matchE (load : Except ModelError (String → List ℝ))
    (resume_text job_description : String) : Except ModelError SemanticResult :=
  if resume_text = "" ∨ job_description = "" then .ok ⟨0, 1⟩
  else
    match load with
    | .error e => .error e
    | .ok encode =>
      let similarity := cosineSim (encode resume_text) (encode job_description)
      .ok ⟨min (similarity * 100) 100, 1 - similarity⟩

/-- calculate_hybrid_match_score with the model load explicit, instrumented
with a flag that is true exactly when the line calling the lexical engine
(tfidf = tfidf_match(...)) executes.  The source computes the semantic score
first and has no try/except, so a raised load failure propagates before the
lexical call is reached. -/
noncomputable def hybridTrace (load : Except ModelError (String → List ℝ))
    (fmtL fmtH : ℝ → String) (resume_text job_description : String) :
    Except ModelError HybridResult × Bool :=
  match calculate_semantic_matchE load resume_text job_description with
  | .error e => (.error e, false)
  | .ok semantic =>
    let tfidf := calculate_match_score fmtL resume_text job_description
    let hybrid_score := semantic.semantic_score * 0.6 + tfidf.score * 0.4
    (.ok ⟨round2 hybrid_score, round2 semantic.semantic_score, round2 tfidf.score,
      tfidf.top_keywords, hybridAnalysis fmtH hybrid_score semantic.semantic_score tfidf.score⟩,
     true)

/-! ## Concrete instances used to evaluate the matchers -/

/-- A fixed rendering function standing for Python float formatting. -/
def fmt0 : ℝ → String := fun _ => "0.0"

/-- A backend whose two embeddings point in opposite directions, so their
cosine similarity is -1. -/
noncomputable def encodeOpposite : String → List ℝ :=
  fun s => if s = "aa" then [1, 0] else [-1, 0]

/-- A constant backend: both texts embed to the same unit vector. -/
noncomputable def encodeConst : String → List ℝ := fun _ => [1, 0]

/-- A backend giving cosine similarity 0.66664 between the two raw texts of
the hybrid counterexample (the second component of the second vector closes it
to a unit vector). -/
noncomputable def encodeNear : String → List ℝ :=
  fun s => if s = "python developer" then [1, 0]
    else [0.66664, Real.sqrt (1 - 0.66664 ^ 2)]

/-- The raw (pre-rounding) blended score computed inside the hybrid scorer:
semantic_score * 0.6 + lexical score * 0.4 — the value the tier selection is
applied to in the source. -/
noncomputable def hybridRawScore (encode : String → List ℝ) (fmtL : ℝ → String)
    (r j : String) : ℝ :=
  (calculate_semantic_match encode r j).semantic_score * 0.6 +
    (calculate_match_score fmtL r j).score * 0.4

/-! ## Row arithmetic: sums of squares, dot products, Cauchy-Schwarz -/

lemma sumsq_nil : sumsq ([] : List ℝ) = 0 := by simp [sumsq]

lemma sumsq_cons (a : ℝ) (v : List ℝ) : sumsq (a :: v) = a ^ 2 + sumsq v := by
  simp [sumsq]

lemma sumsq_nonneg (v : List ℝ) : 0 ≤ sumsq v := by
  induction v with
  | nil => simp [sumsq_nil]
  | cons a as ih => rw [sumsq_cons]; exact add_nonneg (sq_nonneg a) ih

lemma dotList_nil_left (v : List ℝ) : dotList [] v = 0 := by simp [dotList]

lemma dotList_nil_right (u : List ℝ) : dotList u [] = 0 := by simp [dotList]

lemma dotList_cons (a b : ℝ) (u v : List ℝ) :
    dotList (a :: u) (b :: v) = a * b + dotList u v := by simp [dotList]

lemma eq_zero_of_sumsq_eq_zero {v : List ℝ} (h : sumsq v = 0) : ∀ x ∈ v, x = 0 := by
  induction v with
  | nil => simp
  | cons a as ih =>
    rw [sumsq_cons] at h
    have hA := sumsq_nonneg as
    have ha2 : a ^ 2 = 0 := by nlinarith [sq_nonneg a]
    have has : sumsq as = 0 := by nlinarith [sq_nonneg a]
    intro x hx
    rcases List.mem_cons.1 hx with rfl | hx
    · exact pow_eq_zero_iff (by norm_num) |>.1 ha2
    · exact ih has x hx

lemma dotList_zero_left {u : List ℝ} (h : ∀ x ∈ u, x = 0) (v : List ℝ) : dotList u v = 0 := by
  induction u generalizing v with
  | nil => simp [dotList_nil_left]
  | cons a as ih =>
    cases v with
    | nil => simp [dotList_nil_right]
    | cons b bs =>
      rw [dotList_cons, h a (List.mem_cons_self a as),
        ih (fun x hx => h x (List.mem_cons_of_mem _ hx)) bs]
      ring

lemma dotList_zero_right {v : List ℝ} (h : ∀ x ∈ v, x = 0) (u : List ℝ) : dotList u v = 0 := by
  induction v generalizing u with
  | nil => simp [dotList_nil_right]
  | cons b bs ih =>
    cases u with
    | nil => simp [dotList_nil_left]
    | cons a as =>
      rw [dotList_cons, h b (List.mem_cons_self b bs),
        ih (fun x hx => h x (List.mem_cons_of_mem _ hx)) as]
      ring

lemma dotList_self (v : List ℝ) : dotList v v = sumsq v := by
  induction v with
  | nil => simp [dotList_nil_left, sumsq_nil]
  | cons a as ih => rw [dotList_cons, sumsq_cons, ih, sq]

lemma dotList_nonneg {u v : List ℝ} (hu : ∀ x ∈ u, 0 ≤ x) (hv : ∀ x ∈ v, 0 ≤ x) :
    0 ≤ dotList u v := by
  induction u generalizing v with
  | nil => simp [dotList_nil_left]
  | cons a as ih =>
    cases v with
    | nil => simp [dotList_nil_right]
    | cons b bs =>
      rw [dotList_cons]
      have h1 := mul_nonneg (hu a (List.mem_cons_self a as)) (hv b (List.mem_cons_self b bs))
      have h2 := ih (fun x hx => hu x (List.mem_cons_of_mem _ hx))
        (fun x hx => hv x (List.mem_cons_of_mem _ hx))
      linarith

lemma dotList_map_div_left (u v : List ℝ) (a : ℝ) :
    dotList (u.map (fun x => x / a)) v = dotList u v / a := by
  induction u generalizing v with
  | nil => simp [dotList_nil_left]
  | cons x xs ih =>
    cases v with
    | nil => simp [dotList_nil_right]
    | cons y ys =>
      rw [List.map_cons, dotList_cons, dotList_cons, ih]
      ring

lemma dotList_map_div_right (u v : List ℝ) (a : ℝ) :
    dotList u (v.map (fun x => x / a)) = dotList u v / a := by
  induction v generalizing u with
  | nil => simp [dotList_nil_right]
  | cons y ys ih =>
    cases u with
    | nil => simp [dotList_nil_left]
    | cons x xs =>
      rw [List.map_cons, dotList_cons, dotList_cons, ih]
      ring

lemma cauchy_schwarz_list (u v : List ℝ) : dotList u v ^ 2 ≤ sumsq u * sumsq v := by
  induction u generalizing v with
  | nil =>
    simp [dotList_nil_left, sumsq_nil]
  | cons a as ih =>
    cases v with
    | nil =>
      simp [dotList_nil_right, sumsq_nil]
    | cons b bs =>
      have h := ih bs
      have hA := sumsq_nonneg as
      have hB := sumsq_nonneg bs
      rw [dotList_cons, sumsq_cons, sumsq_cons]
      have habs : |dotList as bs| ≤ Real.sqrt (sumsq as * sumsq bs) := by
        rw [← Real.sqrt_sq_eq_abs]
        exact Real.sqrt_le_sqrt h
      have key : 2 * (a * b) * dotList as bs ≤ a ^ 2 * sumsq bs + sumsq as * b ^ 2 := by
        have h1 : 2 * (a * b) * dotList as bs ≤ 2 * |a * b| * |dotList as bs| := by
          calc 2 * (a * b) * dotList as bs ≤ |2 * (a * b) * dotList as bs| := le_abs_self _
            _ = 2 * |a * b| * |dotList as bs| := by rw [abs_mul, abs_mul, abs_two]
        have h2 : 2 * |a * b| * |dotList as bs| ≤ 2 * |a * b| * Real.sqrt (sumsq as * sumsq bs) := by
          apply mul_le_mul_of_nonneg_left habs
          positivity
        have e1 : (|a| * Real.sqrt (sumsq bs)) ^ 2 = a ^ 2 * sumsq bs := by
          rw [mul_pow, sq_abs, Real.sq_sqrt hB]
        have e2 : (|b| * Real.sqrt (sumsq as)) ^ 2 = b ^ 2 * sumsq as := by
          rw [mul_pow, sq_abs, Real.sq_sqrt hA]
        have e3 := sq_nonneg (|a| * Real.sqrt (sumsq bs) - |b| * Real.sqrt (sumsq as))
        rw [sub_sq, e1, e2] at e3
        have h3 : 2 * |a * b| * Real.sqrt (sumsq as * sumsq bs) ≤
            a ^ 2 * sumsq bs + sumsq as * b ^ 2 := by
          rw [abs_mul, Real.sqrt_mul hA]
          nlinarith [e3]
        linarith
      nlinarith [key, h]

/-! ## Cosine similarity facts -/

lemma l2normalize_of_sumsq_eq_zero {v : List ℝ} (h : sumsq v = 0) : l2normalize v = v := by
  rw [l2normalize, if_pos h]

lemma l2normalize_of_sumsq_ne_zero {v : List ℝ} (h : sumsq v ≠ 0) :
    l2normalize v = v.map (fun x => x / Real.sqrt (sumsq v)) := by
  rw [l2normalize, if_neg h]

lemma cosineSim_eq_div {u v : List ℝ} (hu : sumsq u ≠ 0) (hv : sumsq v ≠ 0) :
    cosineSim u v = dotList u v / (Real.sqrt (sumsq u) * Real.sqrt (sumsq v)) := by
  rw [cosineSim, l2normalize_of_sumsq_ne_zero hu, l2normalize_of_sumsq_ne_zero hv,
    dotList_map_div_left, dotList_map_div_right, div_div, mul_comm]

lemma cosineSim_zero_left {u : List ℝ} (h : sumsq u = 0) (v : List ℝ) : cosineSim u v = 0 := by
  rw [cosineSim, l2normalize_of_sumsq_eq_zero h]
  exact dotList_zero_left (eq_zero_of_sumsq_eq_zero h) _

lemma cosineSim_zero_right {v : List ℝ} (h : sumsq v = 0) (u : List ℝ) : cosineSim u v = 0 := by
  rw [cosineSim, l2normalize_of_sumsq_eq_zero h]
  exact dotList_zero_right (eq_zero_of_sumsq_eq_zero h) _

lemma cosineSim_le_one (u v : List ℝ) : cosineSim u v ≤ 1 := by
  by_cases hu : sumsq u = 0
  · rw [cosineSim_zero_left hu]; norm_num
  by_cases hv : sumsq v = 0
  · rw [cosineSim_zero_right hv]; norm_num
  rw [cosineSim_eq_div hu hv]
  have hA := sumsq_nonneg u
  have hB := sumsq_nonneg v
  have hu' : 0 < Real.sqrt (sumsq u) := Real.sqrt_pos.2 (lt_of_le_of_ne hA (Ne.symm hu))
  have hv' : 0 < Real.sqrt (sumsq v) := Real.sqrt_pos.2 (lt_of_le_of_ne hB (Ne.symm hv))
  rw [div_le_one (mul_pos hu' hv')]
  calc dotList u v ≤ |dotList u v| := le_abs_self _
    _ = Real.sqrt (dotList u v ^ 2) := (Real.sqrt_sq_eq_abs _).symm
    _ ≤ Real.sqrt (sumsq u * sumsq v) := Real.sqrt_le_sqrt (cauchy_schwarz_list u v)
    _ = Real.sqrt (sumsq u) * Real.sqrt (sumsq v) := Real.sqrt_mul hA _

lemma cosineSim_nonneg {u v : List ℝ} (hu : ∀ x ∈ u, 0 ≤ x) (hv : ∀ x ∈ v, 0 ≤ x) :
    0 ≤ cosineSim u v := by
  by_cases h1 : sumsq u = 0
  · rw [cosineSim_zero_left h1]
  by_cases h2 : sumsq v = 0
  · rw [cosineSim_zero_right h2]
  rw [cosineSim_eq_div h1 h2]
  exact div_nonneg (dotList_nonneg hu hv)
    (mul_nonneg (Real.sqrt_nonneg _) (Real.sqrt_nonneg _))

lemma cosineSim_self {v : List ℝ} (h : sumsq v ≠ 0) : cosineSim v v = 1 := by
  rw [cosineSim_eq_div h h, dotList_self, Real.mul_self_sqrt (sumsq_nonneg v), div_self h]

/-! ## Rounding facts -/

lemma round2_nonneg {x : ℝ} (h : 0 ≤ x) : 0 ≤ round2 x := by
  rw [round2]
  apply div_nonneg _ (by norm_num)
  have hz : (0:ℤ) ≤ round (x * 100) := by
    rw [round_eq]
    apply Int.floor_nonneg.2
    nlinarith
  exact_mod_cast hz

lemma round2_zero : round2 0 = 0 := by
  rw [round2, zero_mul, round_zero, Int.cast_zero, zero_div]

lemma round2_hundred : round2 100 = 100 := by
  have h : round ((10000:ℝ)) = 10000 := by
    rw [round_eq, Int.floor_eq_iff]
    constructor <;> norm_num
  rw [round2, show ((100:ℝ) * 100) = 10000 by norm_num, h]
  norm_num

/-! ## Sign facts about TF-IDF weights -/

lemma tfWeight_nonneg (sub : Bool) (c : ℕ) : 0 ≤ tfWeight sub c := by
  rw [tfWeight]
  split
  · exact le_refl 0
  next hc =>
    split
    · have h1 : (1:ℝ) ≤ (c:ℝ) := by exact_mod_cast Nat.one_le_iff_ne_zero.2 hc
      have h2 := Real.log_nonneg h1
      linarith
    · positivity

lemma tfWeight_pos (sub : Bool) {c : ℕ} (hc : c ≠ 0) : 0 < tfWeight sub c := by
  rw [tfWeight, if_neg hc]
  split
  · have h1 : (1:ℝ) ≤ (c:ℝ) := by exact_mod_cast Nat.one_le_iff_ne_zero.2 hc
    have h2 := Real.log_nonneg h1
    linarith
  · exact_mod_cast Nat.pos_of_ne_zero hc

lemma tfWeight_eq_zero_iff (sub : Bool) (c : ℕ) : tfWeight sub c = 0 ↔ c = 0 := by
  constructor
  · intro h
    by_contra hc
    exact absurd h (ne_of_gt (tfWeight_pos sub hc))
  · intro h
    rw [h, tfWeight, if_pos rfl]

lemma docFreq_le_two (t : String) (t1 t2 : List String) : docFreq t t1 t2 ≤ 2 := by
  rw [docFreq]
  split <;> split <;> omega

lemma idf_pos {df : ℕ} (h : df ≤ 2) : 0 < idf df := by
  rw [idf]
  have h0 : (0:ℝ) < 1 + (df:ℝ) := by positivity
  have h1 : (1:ℝ) ≤ 3 / (1 + (df:ℝ)) := by
    rw [le_div_iff₀ h0]
    have hd : (df:ℝ) ≤ 2 := by exact_mod_cast h
    linarith
  have h2 := Real.log_nonneg h1
  linarith

lemma tfidfRaw_nonneg (sub : Bool) (own t1 t2 : List String) (t : String) :
    0 ≤ tfidfRaw sub own t1 t2 t :=
  mul_nonneg (tfWeight_nonneg sub _) (le_of_lt (idf_pos (docFreq_le_two t t1 t2)))

lemma tfidfRaw_pos (sub : Bool) (own t1 t2 : List String) {t : String}
    (hc : termCount t own ≠ 0) : 0 < tfidfRaw sub own t1 t2 t :=
  mul_pos (tfWeight_pos sub hc) (idf_pos (docFreq_le_two t t1 t2))

lemma tfidfRaw_eq_zero_iff (sub : Bool) (own t1 t2 : List String) (t : String) :
    tfidfRaw sub own t1 t2 t = 0 ↔ termCount t own = 0 := by
  constructor
  · intro h
    by_contra hc
    exact absurd h (ne_of_gt (tfidfRaw_pos sub own t1 t2 hc))
  · intro h
    rw [tfidfRaw, (tfWeight_eq_zero_iff sub _).2 h, zero_mul]

lemma docVector_nonneg (sub : Bool) (k : ℕ) (own t1 t2 : List String) :
    ∀ x ∈ docVector sub k own t1 t2, 0 ≤ x := by
  intro x hx
  rcases List.mem_map.1 hx with ⟨t, _, rfl⟩
  exact tfidfRaw_nonneg sub own t1 t2 t

lemma normWeight_eq_zero_iff (sub : Bool) (k : ℕ) (own t1 t2 : List String) (t : String) :
    normWeight sub k own t1 t2 t = 0 ↔ termCount t own = 0 := by
  rw [normWeight]
  split
  · exact tfidfRaw_eq_zero_iff sub own t1 t2 t
  next hs =>
    constructor
    · intro h
      rcases div_eq_zero_iff.1 h with h0 | h0
      · exact (tfidfRaw_eq_zero_iff sub own t1 t2 t).1 h0
      · exact absurd ((Real.sqrt_eq_zero (sumsq_nonneg _)).1 h0) hs
    · intro h
      rw [(tfidfRaw_eq_zero_iff sub own t1 t2 t).2 h, zero_div]

lemma normWeight_pos_iff (sub : Bool) (k : ℕ) (own t1 t2 : List String) (t : String) :
    0 < normWeight sub k own t1 t2 t ↔ termCount t own ≠ 0 := by
  constructor
  · intro h hc
    rw [(normWeight_eq_zero_iff sub k own t1 t2 t).2 hc] at h
    exact lt_irrefl 0 h
  · intro hc
    rw [normWeight]
    split
    · exact tfidfRaw_pos sub own t1 t2 hc
    next hs =>
      apply div_pos (tfidfRaw_pos sub own t1 t2 hc)
      exact Real.sqrt_pos.2 (lt_of_le_of_ne (sumsq_nonneg _) (Ne.symm hs))

/-! ## Vocabulary facts -/

lemma insertionSort_eq_nil_iff {α : Type} (r : α → α → Prop) [DecidableRel r] (l : List α) :
    List.insertionSort r l = [] ↔ l = [] := by
  constructor
  · intro h
    have hp := List.perm_insertionSort r l
    rw [h] at hp
    exact hp.symm.eq_nil
  · intro h
    rw [h]
    rfl

lemma sortVocab_eq_nil_iff (l : List String) : sortVocab l = [] ↔ l = [] :=
  insertionSort_eq_nil_iff _ l

lemma mem_sortVocab {l : List String} {t : String} : t ∈ sortVocab l ↔ t ∈ l :=
  List.mem_insertionSort _

lemma limitFeatures_eq_nil_iff {k : ℕ} (hk : k ≠ 0) (v : List String) (f : String → ℕ) :
    limitFeatures k v f = [] ↔ v = [] := by
  rw [limitFeatures]
  split
  · exact Iff.rfl
  next h =>
    rw [sortVocab_eq_nil_iff, List.take_eq_nil_iff, insertionSort_eq_nil_iff]
    constructor
    · rintro (h0 | h0)
      · exact absurd h0 hk
      · exact h0
    · intro h0
      exact Or.inr h0

lemma buildVocab_eq_nil_iff {k : ℕ} (hk : k ≠ 0) (t1 t2 : List String) :
    buildVocab k t1 t2 = [] ↔ t1 = [] ∧ t2 = [] := by
  rw [buildVocab, limitFeatures_eq_nil_iff hk, sortVocab_eq_nil_iff, List.dedup_eq_nil,
    List.append_eq_nil]

lemma limitFeatures_subset {k : ℕ} {v : List String} {f : String → ℕ} {t : String}
    (h : t ∈ limitFeatures k v f) : t ∈ v := by
  rw [limitFeatures] at h
  split at h
  · exact h
  · exact (List.mem_insertionSort _).1 (List.take_subset _ _ (mem_sortVocab.1 h))

lemma buildVocab_subset {k : ℕ} {t1 t2 : List String} {t : String}
    (h : t ∈ buildVocab k t1 t2) : t ∈ t1 ∨ t ∈ t2 := by
  rw [buildVocab] at h
  have h1 := mem_sortVocab.1 (limitFeatures_subset h)
  exact List.mem_append.1 (List.mem_dedup.1 h1)

/-! ## Preprocessing facts -/

lemma isSpaceChar_keepChar_pyLower {c : Char}
    (h : ¬ (('A' ≤ c ∧ c ≤ 'Z') ∨ ('a' ≤ c ∧ c ≤ 'z') ∨ ('0' ≤ c ∧ c ≤ '9'))) :
    isSpaceChar (keepChar (pyLower c)) = true := by
  have h1 : ¬('A' ≤ c ∧ c ≤ 'Z') := fun hc => h (Or.inl hc)
  have h2 : ¬('a' ≤ c ∧ c ≤ 'z') := fun hc => h (Or.inr (Or.inl hc))
  have h3 : ¬('0' ≤ c ∧ c ≤ '9') := fun hc => h (Or.inr (Or.inr hc))
  rw [pyLower, if_neg h1, keepChar]
  by_cases hs : isSpaceChar c = true
  · rw [if_pos (Or.inr (Or.inr hs))]
    exact hs
  · rw [if_neg]
    · rfl
    · rintro (hc | hc | hc)
      exacts [h2 hc, h3 hc, hs hc]

lemma wordsAux_all_space {l : List Char} (h : ∀ c ∈ l, isSpaceChar c = true) :
    wordsAux l [] = [] := by
  induction l with
  | nil => rfl
  | cons c cs ih =>
    rw [wordsAux, if_pos (h c (List.mem_cons_self c cs))]
    simp only [List.isEmpty_nil, if_true]
    exact ih (fun x hx => h x (List.mem_cons_of_mem _ hx))

lemma preprocess_eq_empty_of_no_alnum {r : String}
    (h : ∀ c ∈ r.data, ¬ (('A' ≤ c ∧ c ≤ 'Z') ∨ ('a' ≤ c ∧ c ≤ 'z') ∨ ('0' ≤ c ∧ c ≤ '9'))) :
    _preprocess r = "" := by
  rw [_preprocess]
  have hall : ∀ c ∈ (r.data.map pyLower).map keepChar, isSpaceChar c = true := by
    intro c hc
    rcases List.mem_map.1 hc with ⟨c1, hc1, rfl⟩
    rcases List.mem_map.1 hc1 with ⟨c0, hc0, rfl⟩
    exact isSpaceChar_keepChar_pyLower (h c0 hc0)
  rw [wordsAux_all_space hall]
  rfl

/-! ## Branch lemmas for the lexical matcher -/

lemma match_score_empty (fmt : ℝ → String) (r j : String) (h : r = "" ∨ j = "") :
    calculate_match_score fmt r j = ⟨0, [], "Insufficient text provided for analysis."⟩ := by
  rw [calculate_match_score, if_pos h]

lemma match_score_degenerate (fmt : ℝ → String) (r j : String) (h1 : ¬(r = "" ∨ j = ""))
    (h3 : buildVocab 1000 (docTerms (_preprocess r)) (docTerms (_preprocess j)) = []) :
    calculate_match_score fmt r j =
      ⟨0, [], "Could not extract meaningful content for comparison."⟩ := by
  rw [calculate_match_score, if_neg h1]
  simp only [h3, if_pos]

lemma match_score_main (fmt : ℝ → String) (r j : String) (h1 : r ≠ "") (h2 : j ≠ "")
    (h3 : buildVocab 1000 (docTerms (_preprocess r)) (docTerms (_preprocess j)) ≠ []) :
    calculate_match_score fmt r j =
      ⟨min (round2 (cosineSim
          (docVector true 1000 (docTerms (_preprocess r)) (docTerms (_preprocess r)) (docTerms (_preprocess j)))
          (docVector true 1000 (docTerms (_preprocess j)) (docTerms (_preprocess r)) (docTerms (_preprocess j))) * 100)) 100,
       _extract_top_keywords (_preprocess r) (_preprocess j) 10,
       lexicalAnalysis fmt (min (round2 (cosineSim
          (docVector true 1000 (docTerms (_preprocess r)) (docTerms (_preprocess r)) (docTerms (_preprocess j)))
          (docVector true 1000 (docTerms (_preprocess j)) (docTerms (_preprocess r)) (docTerms (_preprocess j))) * 100)) 100)⟩ := by
  have hcond : ¬(r = "" ∨ j = "") := by
    rintro (h | h)
    exacts [h1 h, h2 h]
  rw [calculate_match_score, if_neg hcond]
  simp only [if_neg h3]

lemma match_score_self (fmt : ℝ → String) (r j : String) (h1 : r ≠ "") (h2 : j ≠ "")
    (hc : _preprocess r = _preprocess j) (ht : docTerms (_preprocess r) ≠ []) :
    (calculate_match_score fmt r j).score = 100 := by
  have hcc : docTerms (_preprocess j) = docTerms (_preprocess r) := by rw [hc]
  have h3 : buildVocab 1000 (docTerms (_preprocess r)) (docTerms (_preprocess j)) ≠ [] := by
    rw [hcc]
    intro h0
    exact ht ((buildVocab_eq_nil_iff (by norm_num) _ _).1 h0).1
  rw [match_score_main fmt r j h1 h2 h3]
  show min (round2 (cosineSim _ _ * 100)) 100 = 100
  rw [hcc]
  have hne : buildVocab 1000 (docTerms (_preprocess r)) (docTerms (_preprocess r)) ≠ [] := by
    rw [hcc] at h3
    exact h3
  have hsq : sumsq (docVector true 1000 (docTerms (_preprocess r)) (docTerms (_preprocess r))
      (docTerms (_preprocess r))) ≠ 0 := by
    obtain ⟨t, htv⟩ := List.exists_mem_of_ne_nil _ hne
    have htr : t ∈ docTerms (_preprocess r) := by
      rcases buildVocab_subset htv with h | h
      exacts [h, h]
    have hcpos : termCount t (docTerms (_preprocess r)) ≠ 0 := by
      rw [termCount]
      exact Nat.pos_iff_ne_zero.1 (List.count_pos_iff.2 htr)
    have hraw := tfidfRaw_pos true (docTerms (_preprocess r)) (docTerms (_preprocess r))
      (docTerms (_preprocess r)) hcpos
    have hmem : tfidfRaw true (docTerms (_preprocess r)) (docTerms (_preprocess r))
        (docTerms (_preprocess r)) t ∈ docVector true 1000 (docTerms (_preprocess r))
        (docTerms (_preprocess r)) (docTerms (_preprocess r)) := List.mem_map_of_mem _ htv
    intro h0
    exact absurd (eq_zero_of_sumsq_eq_zero h0 _ hmem) (ne_of_gt hraw)
  rw [cosineSim_self hsq, one_mul, round2_hundred, min_self]

lemma sumsq_eq_zero_of_all_zero {v : List ℝ} (h : ∀ x ∈ v, x = 0) : sumsq v = 0 := by
  induction v with
  | nil => exact sumsq_nil
  | cons a as ih =>
    rw [sumsq_cons, h a (List.mem_cons_self a as),
      ih (fun x hx => h x (List.mem_cons_of_mem _ hx))]
    norm_num


/-! ## Claims -/

/-- C1 (amended): only genuinely empty input short-circuits.  For every pair
where either input is the empty string, calculate_match_score returns exactly
the zero-score record with the fixed message "Insufficient text provided for
analysis." and no vector space is built; whitespace-only but non-empty input
does not take this branch. -/
theorem c1_empty_string_short_circuit (fmt : ℝ → String) (r j : String)
    (h : r = "" ∨ j = "") :
    calculate_match_score fmt r j = ⟨0, [], "Insufficient text provided for analysis."⟩ := by
  rw [calculate_match_score, if_pos h]

/-- C1 witness: the amended theorem applied at the empty resume. -/
theorem c1_witness :
    (("" : String) = "" ∨ ("x" : String) = "") ∧
    calculate_match_score fmt0 "" "x" = ⟨0, [], "Insufficient text provided for analysis."⟩ :=
  ⟨Or.inl rfl, c1_empty_string_short_circuit fmt0 "" "x" (Or.inl rfl)⟩

/-- C1 counterexample: both inputs consist only of whitespace, yet the result
is not the insufficient-text record claimed: Python truthiness does not treat
a whitespace-only string as empty, so vectorization is attempted, fails on the
empty vocabulary, and the other fixed message is returned. -/
theorem c1_counterexample :
    (calculate_match_score fmt0 " " " ").analysis =
      "Could not extract meaningful content for comparison." ∧
    (calculate_match_score fmt0 " " " ").analysis ≠
      "Insufficient text provided for analysis." := by
  have h := match_score_degenerate fmt0 " " " " (by decide) (by decide)
  rw [h]
  exact ⟨rfl, by decide⟩

/-- C2: the code contradicts its own docstring range of 0-100.  With a backend
whose two embeddings have cosine similarity -1 (possible for an arbitrary
dense-vector embedder), calculate_semantic_match returns semantic_score -100:
only the upper bound is clamped, the lower is not. -/
theorem c2_semantic_score_not_clamped_below :
    (calculate_semantic_match encodeOpposite "aa" "bb").semantic_score = -100 ∧
    (calculate_semantic_match encodeOpposite "aa" "bb").semantic_score < 0 := by
  have henc1 : encodeOpposite "aa" = [1, 0] := by
    rw [encodeOpposite]
    simp
  have henc2 : encodeOpposite "bb" = [-1, 0] := by
    rw [encodeOpposite]
    simp
  have hguard : ¬(("aa" : String) = "" ∨ ("bb" : String) = "") := by decide
  have hsq1 : sumsq [(1:ℝ), 0] = 1 := by
    rw [sumsq_cons, sumsq_cons, sumsq_nil]
    norm_num
  have hsq2 : sumsq [(-1:ℝ), 0] = 1 := by
    rw [sumsq_cons, sumsq_cons, sumsq_nil]
    norm_num
  have hdot : dotList [(1:ℝ), 0] [(-1:ℝ), 0] = -1 := by
    rw [dotList_cons, dotList_cons, dotList_nil_left]
    norm_num
  have hcos : cosineSim [(1:ℝ), 0] [(-1:ℝ), 0] = -1 := by
    rw [cosineSim_eq_div (by rw [hsq1]; norm_num) (by rw [hsq2]; norm_num),
      hdot, hsq1, hsq2, Real.sqrt_one]
    norm_num
  have hres : calculate_semantic_match encodeOpposite "aa" "bb" = ⟨-100, 2⟩ := by
    rw [calculate_semantic_match, if_neg hguard, henc1, henc2, hcos]
    have hmin : min ((-1 : ℝ) * 100) 100 = -100 := by
      rw [min_eq_left (by norm_num)]
      norm_num
    show SemanticResult.mk (min ((-1 : ℝ) * 100) 100) (1 - (-1)) = ⟨-100, 2⟩
    rw [hmin]
    norm_num
  rw [hres]
  exact ⟨rfl, by norm_num⟩

/-- C3: the hybrid score is the fixed 60/40 blend of the semantic engine's
score and the lexical engine's score, rounded to two decimals, and the
top_keywords field is passed through unchanged from the lexical result. -/
theorem c3_hybrid_blend_and_passthrough (encode : String → List ℝ)
    (fmtL fmtH : ℝ → String) (r j : String) :
    (calculate_hybrid_match_score encode fmtL fmtH r j).score =
      round2 ((calculate_semantic_match encode r j).semantic_score * 0.6 +
        (calculate_match_score fmtL r j).score * 0.4) ∧
    (calculate_hybrid_match_score encode fmtL fmtH r j).top_keywords =
      (calculate_match_score fmtL r j).top_keywords :=
  ⟨rfl, rfl⟩

/-- C9: both matchers are deterministic functions of their inputs: with the
embedding backend and the formatters fixed, two calls on identical input give
identical records.  The embedding is pure by construction, which reflects the
absence of any random seed or mutable state in the scoring paths. -/
theorem c9_matchers_deterministic (encode : String → List ℝ)
    (fmt fmtL fmtH : ℝ → String) (r j : String) :
    calculate_match_score fmt r j = calculate_match_score fmt r j ∧
    calculate_hybrid_match_score encode fmtL fmtH r j =
      calculate_hybrid_match_score encode fmtL fmtH r j :=
  ⟨rfl, rfl⟩

/-- C8 (amended): the hybrid scorer invokes the lexical engine exactly on the
calls where the semantic step does not raise.  The source computes the
semantic score first with no try/except, so a model-load failure propagates
and the lexical call is never reached on that call. -/
theorem c8_lexical_called_iff_semantic_ok (load : Except ModelError (String → List ℝ))
    (fmtL fmtH : ℝ → String) (r j : String) :
    (hybridTrace load fmtL fmtH r j).2 = (calculate_semantic_matchE load r j).isOk := by
  cases h : calculate_semantic_matchE load r j with
  | error e => simp [hybridTrace, h, Except.isOk, Except.toBool]
  | ok s => simp [hybridTrace, h, Except.isOk, Except.toBool]

/-- C8 counterexample: with a failing model load and non-empty inputs, the
hybrid scorer propagates the load failure and the lexical engine is not
invoked, contradicting the claim that both engines are always called. -/
theorem c8_counterexample :
    (hybridTrace (Except.error ModelError.loadFailure) fmt0 fmt0 "aa" "bb").2 = false ∧
    (hybridTrace (Except.error ModelError.loadFailure) fmt0 fmt0 "aa" "bb").1 =
      Except.error ModelError.loadFailure := by
  have h : calculate_semantic_matchE (Except.error ModelError.loadFailure) "aa" "bb" =
      Except.error ModelError.loadFailure := by
    rw [calculate_semantic_matchE, if_neg (by decide)]
  constructor
  · simp [hybridTrace, h]
  · simp [hybridTrace, h]

/-- C7: the lexical pipeline never raises for any string input: the explicit
exception-aware variant always returns an ok record — the one unguarded
vectorization inside keyword extraction can never fail when the guarded main
vectorization has succeeded — and whenever the fitted vocabulary is empty the
result is exactly the degenerate-vocabulary record. -/
theorem c7_lexical_never_raises (fmt : ℝ → String) (r j : String) :
    calculate_match_scoreE fmt r j = Except.ok (calculate_match_score fmt r j) ∧
    (r ≠ "" → j ≠ "" →
      buildVocab 1000 (docTerms (_preprocess r)) (docTerms (_preprocess j)) = [] →
      calculate_match_score fmt r j =
        ⟨0, [], "Could not extract meaningful content for comparison."⟩) := by
  constructor
  · by_cases h1 : r = "" ∨ j = ""
    · rw [calculate_match_scoreE, if_pos h1, calculate_match_score, if_pos h1]
    · by_cases h3 : buildVocab 1000 (docTerms (_preprocess r)) (docTerms (_preprocess j)) = []
      · have hf : fit_transformE 1000 (docTerms (_preprocess r)) (docTerms (_preprocess j)) =
            Except.error VectorizeError.emptyVocabulary := by
          rw [fit_transformE, if_pos h3]
        rw [calculate_match_scoreE, if_neg h1]
        simp only [hf]
        rw [match_score_degenerate fmt r j h1 h3]
      · have hr : r ≠ "" := fun h => h1 (Or.inl h)
        have hj : j ≠ "" := fun h => h1 (Or.inr h)
        have hf : fit_transformE 1000 (docTerms (_preprocess r)) (docTerms (_preprocess j)) =
            Except.ok (buildVocab 1000 (docTerms (_preprocess r)) (docTerms (_preprocess j))) := by
          rw [fit_transformE, if_neg h3]
        have h5 : buildVocab 500 (docTerms (_preprocess r)) (docTerms (_preprocess j)) ≠ [] := by
          intro h0
          exact h3 ((buildVocab_eq_nil_iff (by norm_num) _ _).2
            ((buildVocab_eq_nil_iff (by norm_num) _ _).1 h0))
        have hf5 : fit_transformE 500 (docTerms (_preprocess r)) (docTerms (_preprocess j)) =
            Except.ok (buildVocab 500 (docTerms (_preprocess r)) (docTerms (_preprocess j))) := by
          rw [fit_transformE, if_neg h5]
        have hk : _extract_top_keywordsE (_preprocess r) (_preprocess j) 10 =
            Except.ok (_extract_top_keywords (_preprocess r) (_preprocess j) 10) := by
          rw [_extract_top_keywordsE]
          simp only [hf5]
        rw [calculate_match_scoreE, if_neg h1]
        simp only [hf, hk]
        rw [match_score_main fmt r j hr hj h3]
  · intro hr hj h3
    exact match_score_degenerate fmt r j (by rintro (h | h); exacts [hr h, hj h]) h3

/-- C7 witness: the theorem applied to whitespace-only inputs, whose fitted
vocabulary is empty. -/
theorem c7_witness :
    (" " : String) ≠ "" ∧
    buildVocab 1000 (docTerms (_preprocess " ")) (docTerms (_preprocess " ")) = [] ∧
    calculate_match_score fmt0 " " " " =
      ⟨0, [], "Could not extract meaningful content for comparison."⟩ :=
  ⟨by decide, by decide, (c7_lexical_never_raises fmt0 " " " ").2 (by decide) (by decide) (by decide)⟩

/-- C4: on the non-degenerate path the lexical score is exactly the cosine
similarity of the two TF-IDF document rows times 100, rounded to two decimals
and clamped above at 100; and for every non-empty pair of inputs the returned
score lies in the interval from 0 to 100. -/
theorem c4_lexical_cosine_formula_and_range (fmt : ℝ → String) (r j : String) :
    (r ≠ "" → j ≠ "" →
      buildVocab 1000 (docTerms (_preprocess r)) (docTerms (_preprocess j)) ≠ [] →
      (calculate_match_score fmt r j).score =
        min (round2 (cosineSim
          (docVector true 1000 (docTerms (_preprocess r)) (docTerms (_preprocess r)) (docTerms (_preprocess j)))
          (docVector true 1000 (docTerms (_preprocess j)) (docTerms (_preprocess r)) (docTerms (_preprocess j))) * 100)) 100) ∧
    (r ≠ "" → j ≠ "" →
      0 ≤ (calculate_match_score fmt r j).score ∧
      (calculate_match_score fmt r j).score ≤ 100) := by
  constructor
  · intro h1 h2 h3
    rw [match_score_main fmt r j h1 h2 h3]
  · intro h1 h2
    by_cases h3 : buildVocab 1000 (docTerms (_preprocess r)) (docTerms (_preprocess j)) = []
    · rw [match_score_degenerate fmt r j (by rintro (h | h); exacts [h1 h, h2 h]) h3]
      exact ⟨le_refl 0, by norm_num⟩
    · rw [match_score_main fmt r j h1 h2 h3]
      have hle := cosineSim_le_one
        (docVector true 1000 (docTerms (_preprocess r)) (docTerms (_preprocess r)) (docTerms (_preprocess j)))
        (docVector true 1000 (docTerms (_preprocess j)) (docTerms (_preprocess r)) (docTerms (_preprocess j)))
      have hnn := cosineSim_nonneg
        (docVector_nonneg true 1000 (docTerms (_preprocess r)) (docTerms (_preprocess r)) (docTerms (_preprocess j)))
        (docVector_nonneg true 1000 (docTerms (_preprocess j)) (docTerms (_preprocess r)) (docTerms (_preprocess j)))
      constructor
      · show (0:ℝ) ≤ min (round2 (cosineSim
          (docVector true 1000 (docTerms (_preprocess r)) (docTerms (_preprocess r)) (docTerms (_preprocess j)))
          (docVector true 1000 (docTerms (_preprocess j)) (docTerms (_preprocess r)) (docTerms (_preprocess j))) * 100)) 100
        apply le_min
        · exact round2_nonneg (by nlinarith)
        · norm_num
      · show min (round2 (cosineSim
          (docVector true 1000 (docTerms (_preprocess r)) (docTerms (_preprocess r)) (docTerms (_preprocess j)))
          (docVector true 1000 (docTerms (_preprocess j)) (docTerms (_preprocess r)) (docTerms (_preprocess j))) * 100)) 100 ≤ (100:ℝ)
        exact min_le_right _ _

/-- C4 witness: the range part of the theorem applied to a concrete non-empty
pair with non-empty vocabulary. -/
theorem c4_witness :
    ("python developer" : String) ≠ "" ∧
    buildVocab 1000 (docTerms (_preprocess "python developer"))
      (docTerms (_preprocess "python developer")) ≠ [] ∧
    (0 ≤ (calculate_match_score fmt0 "python developer" "python developer").score ∧
      (calculate_match_score fmt0 "python developer" "python developer").score ≤ 100) :=
  ⟨by decide, by decide,
    (c4_lexical_cosine_formula_and_range fmt0 "python developer" "python developer").2
      (by decide) (by decide)⟩

/-- C10: a non-empty resume with no ASCII alphanumeric characters normalizes
to the empty string, which does not short-circuit; with a job description
contributing at least one term the vector space is built, the resume row is
the zero vector, and the result is score 0, no keywords, and the low-tier
analysis message. -/
theorem c10_symbol_only_resume (fmt : ℝ → String) (r j : String) (hr : r ≠ "")
    (hal : ∀ c ∈ r.data, ¬ (('A' ≤ c ∧ c ≤ 'Z') ∨ ('a' ≤ c ∧ c ≤ 'z') ∨ ('0' ≤ c ∧ c ≤ '9')))
    (hj : docTerms (_preprocess j) ≠ []) :
    buildVocab 1000 (docTerms (_preprocess r)) (docTerms (_preprocess j)) ≠ [] ∧
    calculate_match_score fmt r j =
      ⟨0, [], "Low match (" ++ fmt 0 ++ "%). Significant gaps exist between your resume and the job description. Consider tailoring your resume specifically for this role."⟩ := by
  have hpre : _preprocess r = "" := preprocess_eq_empty_of_no_alnum hal
  have htr : docTerms (_preprocess r) = [] := by rw [hpre]; rfl
  have hj' : j ≠ "" := by
    intro h0
    apply hj
    rw [h0]
    rfl
  have h3 : buildVocab 1000 (docTerms (_preprocess r)) (docTerms (_preprocess j)) ≠ [] := by
    intro h0
    exact hj ((buildVocab_eq_nil_iff (by norm_num) _ _).1 h0).2
  refine ⟨h3, ?_⟩
  rw [match_score_main fmt r j hr hj' h3]
  have hcount : ∀ t, termCount t (docTerms (_preprocess r)) = 0 := by
    intro t
    rw [htr, termCount]
    exact List.count_nil t
  have hzero : ∀ x ∈ docVector true 1000 (docTerms (_preprocess r)) (docTerms (_preprocess r))
      (docTerms (_preprocess j)), x = 0 := by
    intro x hx
    rcases List.mem_map.1 hx with ⟨t, _, rfl⟩
    rw [tfidfRaw, hcount t, (tfWeight_eq_zero_iff true 0).2 rfl, zero_mul]
  have hsum0 : sumsq (docVector true 1000 (docTerms (_preprocess r)) (docTerms (_preprocess r))
      (docTerms (_preprocess j))) = 0 := sumsq_eq_zero_of_all_zero hzero
  rw [cosineSim_zero_left hsum0]
  have hs : min (round2 ((0:ℝ) * 100)) 100 = 0 := by
    rw [zero_mul, round2_zero]
    exact min_eq_left (by norm_num)
  rw [hs]
  have hnw : ∀ w, normWeight false 500 (docTerms (_preprocess r)) (docTerms (_preprocess r))
      (docTerms (_preprocess j)) w = 0 :=
    fun w => (normWeight_eq_zero_iff false 500 _ _ _ w).2 (hcount w)
  have hkw : _extract_top_keywords (_preprocess r) (_preprocess j) 10 = [] := by
    simp only [_extract_top_keywords, hnw, lt_self_iff_false, false_and, decide_False,
      List.filter_false]
    rfl
  rw [hkw]
  have han : lexicalAnalysis fmt 0 =
      "Low match (" ++ fmt 0 ++ "%). Significant gaps exist between your resume and the job description. Consider tailoring your resume specifically for this role." := by
    rw [lexicalAnalysis, if_neg (by norm_num), if_neg (by norm_num), if_neg (by norm_num)]
  rw [han]

/-- C10 witness: a symbol-only resume against a two-token job description. -/
theorem c10_witness :
    ("!!!" : String) ≠ "" ∧
    (∀ c ∈ ("!!!" : String).data,
      ¬ (('A' ≤ c ∧ c ≤ 'Z') ∨ ('a' ≤ c ∧ c ≤ 'z') ∨ ('0' ≤ c ∧ c ≤ '9'))) ∧
    docTerms (_preprocess "python developer") ≠ [] ∧
    (buildVocab 1000 (docTerms (_preprocess "!!!"))
        (docTerms (_preprocess "python developer")) ≠ [] ∧
      calculate_match_score fmt0 "!!!" "python developer" =
        ⟨0, [], "Low match (" ++ fmt0 0 ++ "%). Significant gaps exist between your resume and the job description. Consider tailoring your resume specifically for this role."⟩) :=
  ⟨by decide, by decide, by decide,
    c10_symbol_only_resume fmt0 "!!!" "python developer" (by decide) (by decide) (by decide)⟩

/-! ## Tier selection lemmas -/

lemma lexicalAnalysis_excellent (fmt : ℝ → String) {s : ℝ} (h : 80 ≤ s) :
    lexicalAnalysis fmt s =
      "Excellent match (" ++ fmt s ++ "%)! Your resume aligns strongly with the job requirements. Fine-tune specific metrics and achievements." := by
  rw [lexicalAnalysis, if_pos h]

lemma lexicalAnalysis_good (fmt : ℝ → String) {s : ℝ} (h1 : 60 ≤ s) (h2 : s < 80) :
    lexicalAnalysis fmt s =
      "Good match (" ++ fmt s ++ "%). Your resume covers many requirements. Consider adding missing keywords and quantifiable results." := by
  rw [lexicalAnalysis, if_neg (not_le.2 h2), if_pos h1]

lemma lexicalAnalysis_moderate (fmt : ℝ → String) {s : ℝ} (h1 : 40 ≤ s) (h2 : s < 60) :
    lexicalAnalysis fmt s =
      "Moderate match (" ++ fmt s ++ "%). There are notable gaps. Focus on incorporating more job-specific terminology and relevant experience." := by
  rw [lexicalAnalysis, if_neg (not_le.2 (by linarith)), if_neg (not_le.2 h2), if_pos h1]

lemma lexicalAnalysis_low (fmt : ℝ → String) {s : ℝ} (h : s < 40) :
    lexicalAnalysis fmt s =
      "Low match (" ++ fmt s ++ "%). Significant gaps exist between your resume and the job description. Consider tailoring your resume specifically for this role." := by
  rw [lexicalAnalysis, if_neg (not_le.2 (by linarith)), if_neg (not_le.2 (by linarith)),
    if_neg (not_le.2 h)]

lemma hybridAnalysis_excellent (fmt : ℝ → String) {h : ℝ} (s k : ℝ) (hh : 80 ≤ h) :
    hybridAnalysis fmt h s k =
      "Excellent match (" ++ fmt h ++ "%)! Strong semantic alignment (semantic: " ++ fmt s ++ "%, keywords: " ++ fmt k ++ "%). Your resume aligns well with the job requirements." := by
  rw [hybridAnalysis, if_pos hh]

lemma hybridAnalysis_good (fmt : ℝ → String) {h : ℝ} (s k : ℝ) (h1 : 60 ≤ h) (h2 : h < 80) :
    hybridAnalysis fmt h s k =
      "Good match (" ++ fmt h ++ "%). Semantic similarity: " ++ fmt s ++ "%, Keyword overlap: " ++ fmt k ++ "%. Consider adding more relevant keywords to improve further." := by
  rw [hybridAnalysis, if_neg (not_le.2 h2), if_pos h1]

lemma hybridAnalysis_moderate (fmt : ℝ → String) {h : ℝ} (s k : ℝ) (h1 : 40 ≤ h) (h2 : h < 60) :
    hybridAnalysis fmt h s k =
      "Moderate match (" ++ fmt h ++ "%). Semantic: " ++ fmt s ++ "%, Keywords: " ++ fmt k ++ "%. Focus on incorporating more job-specific terminology and relevant experience." := by
  rw [hybridAnalysis, if_neg (not_le.2 (by linarith)), if_neg (not_le.2 h2), if_pos h1]

lemma hybridAnalysis_low (fmt : ℝ → String) {h : ℝ} (s k : ℝ) (hh : h < 40) :
    hybridAnalysis fmt h s k =
      "Low match (" ++ fmt h ++ "%). Significant gaps exist. Consider tailoring your resume more closely to the job description with relevant keywords and context." := by
  rw [hybridAnalysis, if_neg (not_le.2 (by linarith)), if_neg (not_le.2 (by linarith)),
    if_neg (not_le.2 hh)]

lemma round2_79_9984 : round2 (79.9984 : ℝ) = 80 := by
  have h : round ((7999.84 : ℝ)) = 8000 := by
    rw [round_eq, Int.floor_eq_iff]
    constructor <;> norm_num
  rw [round2, show (79.9984 : ℝ) * 100 = 7999.84 by norm_num, h]
  norm_num

/-- C5 (amended): the four-tier thresholds 80/60/40 with the exact wordings
hold for both matchers, and both boundaries are closed at 80 on the value the
selection is applied to; however the lexical matcher selects on the reported
(rounded, clamped) score while the hybrid matcher selects on the raw
pre-rounding blended score, so only the lexical matcher guarantees that a
reported score of exactly 80.0 carries the excellent-tier wording. -/
theorem c5_tier_thresholds (fmtL fmtH : ℝ → String) (encode : String → List ℝ) (r j : String) :
    (r ≠ "" → j ≠ "" →
      buildVocab 1000 (docTerms (_preprocess r)) (docTerms (_preprocess j)) ≠ [] →
      ((80 ≤ (calculate_match_score fmtL r j).score →
        (calculate_match_score fmtL r j).analysis =
          "Excellent match (" ++ fmtL (calculate_match_score fmtL r j).score ++ "%)! Your resume aligns strongly with the job requirements. Fine-tune specific metrics and achievements.") ∧
       (60 ≤ (calculate_match_score fmtL r j).score → (calculate_match_score fmtL r j).score < 80 →
        (calculate_match_score fmtL r j).analysis =
          "Good match (" ++ fmtL (calculate_match_score fmtL r j).score ++ "%). Your resume covers many requirements. Consider adding missing keywords and quantifiable results.") ∧
       (40 ≤ (calculate_match_score fmtL r j).score → (calculate_match_score fmtL r j).score < 60 →
        (calculate_match_score fmtL r j).analysis =
          "Moderate match (" ++ fmtL (calculate_match_score fmtL r j).score ++ "%). There are notable gaps. Focus on incorporating more job-specific terminology and relevant experience.") ∧
       ((calculate_match_score fmtL r j).score < 40 →
        (calculate_match_score fmtL r j).analysis =
          "Low match (" ++ fmtL (calculate_match_score fmtL r j).score ++ "%). Significant gaps exist between your resume and the job description. Consider tailoring your resume specifically for this role."))) ∧
    ((80 ≤ hybridRawScore encode fmtL r j →
      (calculate_hybrid_match_score encode fmtL fmtH r j).analysis =
        "Excellent match (" ++ fmtH (hybridRawScore encode fmtL r j) ++ "%)! Strong semantic alignment (semantic: " ++ fmtH (calculate_semantic_match encode r j).semantic_score ++ "%, keywords: " ++ fmtH (calculate_match_score fmtL r j).score ++ "%). Your resume aligns well with the job requirements.") ∧
     (60 ≤ hybridRawScore encode fmtL r j → hybridRawScore encode fmtL r j < 80 →
      (calculate_hybrid_match_score encode fmtL fmtH r j).analysis =
        "Good match (" ++ fmtH (hybridRawScore encode fmtL r j) ++ "%). Semantic similarity: " ++ fmtH (calculate_semantic_match encode r j).semantic_score ++ "%, Keyword overlap: " ++ fmtH (calculate_match_score fmtL r j).score ++ "%. Consider adding more relevant keywords to improve further.") ∧
     (40 ≤ hybridRawScore encode fmtL r j → hybridRawScore encode fmtL r j < 60 →
      (calculate_hybrid_match_score encode fmtL fmtH r j).analysis =
        "Moderate match (" ++ fmtH (hybridRawScore encode fmtL r j) ++ "%). Semantic: " ++ fmtH (calculate_semantic_match encode r j).semantic_score ++ "%, Keywords: " ++ fmtH (calculate_match_score fmtL r j).score ++ "%. Focus on incorporating more job-specific terminology and relevant experience.") ∧
     (hybridRawScore encode fmtL r j < 40 →
      (calculate_hybrid_match_score encode fmtL fmtH r j).analysis =
        "Low match (" ++ fmtH (hybridRawScore encode fmtL r j) ++ "%). Significant gaps exist. Consider tailoring your resume more closely to the job description with relevant keywords and context.")) := by
  constructor
  · intro h1 h2 h3
    rw [match_score_main fmtL r j h1 h2 h3]
    refine ⟨fun h => ?_, fun ha hb => ?_, fun ha hb => ?_, fun h => ?_⟩
    · exact lexicalAnalysis_excellent fmtL h
    · exact lexicalAnalysis_good fmtL ha hb
    · exact lexicalAnalysis_moderate fmtL ha hb
    · exact lexicalAnalysis_low fmtL h
  · refine ⟨fun h => ?_, fun ha hb => ?_, fun ha hb => ?_, fun h => ?_⟩
    · exact hybridAnalysis_excellent fmtH _ _ h
    · exact hybridAnalysis_good fmtH _ _ ha hb
    · exact hybridAnalysis_moderate fmtH _ _ ha hb
    · exact hybridAnalysis_low fmtH _ _ h

lemma semantic_const_self :
    (calculate_semantic_match encodeConst "python developer" "python developer").semantic_score
      = 100 := by
  rw [calculate_semantic_match, if_neg (by decide)]
  show min (cosineSim (encodeConst "python developer") (encodeConst "python developer") * 100)
      100 = 100
  have h1 : encodeConst "python developer" = [1, 0] := rfl
  have hsq : sumsq [(1:ℝ), 0] ≠ 0 := by
    rw [sumsq_cons, sumsq_cons, sumsq_nil]
    norm_num
  rw [h1, cosineSim_self hsq, one_mul, min_self]

/-- C5 witness: the theorem applied to identical texts, where the lexical
score is exactly 100 and a constant embedding backend makes the raw hybrid
score 100; both matchers select the excellent tier at a score above 80. -/
theorem c5_witness :
    ("python developer" : String) ≠ "" ∧
    buildVocab 1000 (docTerms (_preprocess "python developer"))
      (docTerms (_preprocess "python developer")) ≠ [] ∧
    80 ≤ (calculate_match_score fmt0 "python developer" "python developer").score ∧
    (calculate_match_score fmt0 "python developer" "python developer").analysis =
      "Excellent match (" ++ fmt0 (calculate_match_score fmt0 "python developer" "python developer").score ++ "%)! Your resume aligns strongly with the job requirements. Fine-tune specific metrics and achievements." ∧
    80 ≤ hybridRawScore encodeConst fmt0 "python developer" "python developer" ∧
    (calculate_hybrid_match_score encodeConst fmt0 fmt0 "python developer" "python developer").analysis =
      "Excellent match (" ++ fmt0 (hybridRawScore encodeConst fmt0 "python developer" "python developer") ++ "%)! Strong semantic alignment (semantic: " ++ fmt0 (calculate_semantic_match encodeConst "python developer" "python developer").semantic_score ++ "%, keywords: " ++ fmt0 (calculate_match_score fmt0 "python developer" "python developer").score ++ "%). Your resume aligns well with the job requirements." := by
  have hsc : (calculate_match_score fmt0 "python developer" "python developer").score = 100 :=
    match_score_self fmt0 "python developer" "python developer" (by decide) (by decide) rfl
      (by decide)
  have h80 : 80 ≤ (calculate_match_score fmt0 "python developer" "python developer").score := by
    rw [hsc]
    norm_num
  have hraw : hybridRawScore encodeConst fmt0 "python developer" "python developer" = 100 := by
    rw [hybridRawScore, semantic_const_self, hsc]
    norm_num
  have hraw80 : 80 ≤ hybridRawScore encodeConst fmt0 "python developer" "python developer" := by
    rw [hraw]
    norm_num
  exact ⟨by decide, by decide, h80,
    ((c5_tier_thresholds fmt0 fmt0 encodeConst "python developer" "python developer").1
      (by decide) (by decide) (by decide)).1 h80,
    hraw80,
    ((c5_tier_thresholds fmt0 fmt0 encodeConst "python developer" "python developer").2).1 hraw80⟩

lemma semantic_near_value :
    (calculate_semantic_match encodeNear "python developer" "python developer!").semantic_score
      = 66.664 := by
  rw [calculate_semantic_match, if_neg (by decide)]
  show min (cosineSim (encodeNear "python developer") (encodeNear "python developer!") * 100)
      100 = 66.664
  have henc1 : encodeNear "python developer" = [1, 0] := by
    simp [encodeNear]
  have henc2 : encodeNear "python developer!" =
      [0.66664, Real.sqrt (1 - 0.66664 ^ 2)] := by
    simp [encodeNear]
  have hsq1 : sumsq [(1:ℝ), 0] = 1 := by
    rw [sumsq_cons, sumsq_cons, sumsq_nil]
    norm_num
  have hsq2 : sumsq [(0.66664:ℝ), Real.sqrt (1 - 0.66664 ^ 2)] = 1 := by
    rw [sumsq_cons, sumsq_cons, sumsq_nil,
      Real.sq_sqrt (by norm_num : (0:ℝ) ≤ 1 - 0.66664 ^ 2)]
    norm_num
  have hdot : dotList [(1:ℝ), 0] [(0.66664:ℝ), Real.sqrt (1 - 0.66664 ^ 2)] = 0.66664 := by
    rw [dotList_cons, dotList_cons, dotList_nil_left]
    norm_num
  have hcos : cosineSim (encodeNear "python developer") (encodeNear "python developer!")
      = 0.66664 := by
    rw [henc1, henc2,
      cosineSim_eq_div (by rw [hsq1]; norm_num) (by rw [hsq2]; norm_num),
      hdot, hsq1, hsq2, Real.sqrt_one]
    norm_num
  rw [hcos, min_eq_left (by norm_num)]
  norm_num

/-- C5 counterexample: the hybrid scorer applied to two raw texts with equal
normalized form (so the lexical score is exactly 100) and a backend with
cosine similarity 0.66664: the raw blended score is 79.9984, which rounds to
a reported score of exactly 80.0, yet the analysis carries the good-tier
wording, not the excellent-tier wording the claim requires at a reported
score of 80.0. -/
theorem c5_counterexample :
    (calculate_hybrid_match_score encodeNear fmt0 fmt0 "python developer" "python developer!").score = 80 ∧
    (calculate_hybrid_match_score encodeNear fmt0 fmt0 "python developer" "python developer!").analysis =
      "Good match (0.0%). Semantic similarity: 0.0%, Keyword overlap: 0.0%. Consider adding more relevant keywords to improve further." ∧
    (calculate_hybrid_match_score encodeNear fmt0 fmt0 "python developer" "python developer!").analysis ≠
      "Excellent match (0.0%)! Strong semantic alignment (semantic: 0.0%, keywords: 0.0%). Your resume aligns well with the job requirements." := by
  have hsc : (calculate_match_score fmt0 "python developer" "python developer!").score = 100 :=
    match_score_self fmt0 "python developer" "python developer!" (by decide) (by decide)
      (by decide) (by decide)
  have hfold : (66.664 : ℝ) * 0.6 + 100 * 0.4 = 79.9984 := by norm_num
  have hscore :
      (calculate_hybrid_match_score encodeNear fmt0 fmt0 "python developer" "python developer!").score = 80 := by
    show round2 ((calculate_semantic_match encodeNear "python developer" "python developer!").semantic_score * 0.6 +
      (calculate_match_score fmt0 "python developer" "python developer!").score * 0.4) = 80
    rw [semantic_near_value, hsc, hfold, round2_79_9984]
  have hana :
      (calculate_hybrid_match_score encodeNear fmt0 fmt0 "python developer" "python developer!").analysis =
      "Good match (0.0%). Semantic similarity: 0.0%, Keyword overlap: 0.0%. Consider adding more relevant keywords to improve further." := by
    show hybridAnalysis fmt0
      ((calculate_semantic_match encodeNear "python developer" "python developer!").semantic_score * 0.6 +
        (calculate_match_score fmt0 "python developer" "python developer!").score * 0.4)
      (calculate_semantic_match encodeNear "python developer" "python developer!").semantic_score
      (calculate_match_score fmt0 "python developer" "python developer!").score =
      "Good match (0.0%). Semantic similarity: 0.0%, Keyword overlap: 0.0%. Consider adding more relevant keywords to improve further."
    rw [semantic_near_value, hsc, hfold,
      hybridAnalysis_good fmt0 _ _ (by norm_num) (by norm_num)]
    rfl
  exact ⟨hscore, hana, by rw [hana]; decide⟩

/-! ## Branch lemmas for the missing-keyword extractor -/

lemma get_missing_keywords_nil (r j : String) (n : ℕ)
    (h : buildVocab 500 (docTerms (_preprocess r)) (docTerms (_preprocess j)) = []) :
    get_missing_keywords r j n = [] := by
  simp [get_missing_keywords, h]

lemma get_missing_keywords_main (r j : String) (n : ℕ)
    (h : buildVocab 500 (docTerms (_preprocess r)) (docTerms (_preprocess j)) ≠ []) :
    get_missing_keywords r j n =
      (List.insertionSort
        (fun a b =>
          normWeight false 500 (docTerms (_preprocess j)) (docTerms (_preprocess r)) (docTerms (_preprocess j)) b ≤
          normWeight false 500 (docTerms (_preprocess j)) (docTerms (_preprocess r)) (docTerms (_preprocess j)) a)
        ((buildVocab 500 (docTerms (_preprocess r)) (docTerms (_preprocess j))).filter
          (fun w => decide
            (normWeight false 500 (docTerms (_preprocess r)) (docTerms (_preprocess r)) (docTerms (_preprocess j)) w = 0 ∧
             0 < normWeight false 500 (docTerms (_preprocess j)) (docTerms (_preprocess r)) (docTerms (_preprocess j)) w)))).take n := by
  simp only [get_missing_keywords]
  rw [if_neg h]

/-- C6: the missing-keyword extractor returns exactly the n-truncation of a
list that is a permutation of the vocabulary terms with zero weight in the
resume row and positive weight in the job row, sorted by job weight
descending; and no returned term occurs among the resume's extracted terms. -/
theorem c6_missing_keywords_characterization (r j : String) (n : ℕ) :
    (∃ l : List String,
      get_missing_keywords r j n = l.take n ∧
      l.Perm ((buildVocab 500 (docTerms (_preprocess r)) (docTerms (_preprocess j))).filter
        (fun w => decide
          (normWeight false 500 (docTerms (_preprocess r)) (docTerms (_preprocess r)) (docTerms (_preprocess j)) w = 0 ∧
           0 < normWeight false 500 (docTerms (_preprocess j)) (docTerms (_preprocess r)) (docTerms (_preprocess j)) w))) ∧
      l.Sorted (fun a b =>
        normWeight false 500 (docTerms (_preprocess j)) (docTerms (_preprocess r)) (docTerms (_preprocess j)) b ≤
        normWeight false 500 (docTerms (_preprocess j)) (docTerms (_preprocess r)) (docTerms (_preprocess j)) a)) ∧
    (∀ t, t ∈ get_missing_keywords r j n → termCount t (docTerms (_preprocess r)) = 0) := by
  constructor
  · by_cases h : buildVocab 500 (docTerms (_preprocess r)) (docTerms (_preprocess j)) = []
    · refine ⟨[], ?_, ?_, List.sorted_nil⟩
      · rw [get_missing_keywords_nil r j n h, List.take_nil]
      · rw [h]
        exact List.Perm.refl _
    · refine ⟨_, get_missing_keywords_main r j n h, List.perm_insertionSort _ _, ?_⟩
      haveI ht : IsTotal String (fun a b =>
          normWeight false 500 (docTerms (_preprocess j)) (docTerms (_preprocess r)) (docTerms (_preprocess j)) b ≤
          normWeight false 500 (docTerms (_preprocess j)) (docTerms (_preprocess r)) (docTerms (_preprocess j)) a) :=
        ⟨fun a b => (le_total _ _).symm⟩
      haveI htr : IsTrans String (fun a b =>
          normWeight false 500 (docTerms (_preprocess j)) (docTerms (_preprocess r)) (docTerms (_preprocess j)) b ≤
          normWeight false 500 (docTerms (_preprocess j)) (docTerms (_preprocess r)) (docTerms (_preprocess j)) a) :=
        ⟨fun _ _ _ hab hbc => le_trans hbc hab⟩
      exact List.sorted_insertionSort _ _
  · intro t ht
    by_cases h : buildVocab 500 (docTerms (_preprocess r)) (docTerms (_preprocess j)) = []
    · rw [get_missing_keywords_nil r j n h] at ht
      simp at ht
    · rw [get_missing_keywords_main r j n h] at ht
      have ht2 := List.take_subset _ _ ht
      have ht3 := (List.mem_insertionSort _).1 ht2
      have ht4 := (List.mem_filter.1 ht3).2
      simp only [decide_eq_true_eq] at ht4
      exact (normWeight_eq_zero_iff false 500 _ _ _ t).1 ht4.1

lemma missing_eval :
    get_missing_keywords "" "aa" 10 = ["aa"] := by
  have hvne : buildVocab 500 (docTerms (_preprocess "")) (docTerms (_preprocess "aa")) ≠ [] := by
    decide
  have hv : buildVocab 500 (docTerms (_preprocess "")) (docTerms (_preprocess "aa")) = ["aa"] := by
    decide
  rw [get_missing_keywords_main "" "aa" 10 hvne, hv]
  have hrw : normWeight false 500 (docTerms (_preprocess "")) (docTerms (_preprocess ""))
      (docTerms (_preprocess "aa")) "aa" = 0 :=
    (normWeight_eq_zero_iff false 500 _ _ _ "aa").2 (by decide)
  have hjw : 0 < normWeight false 500 (docTerms (_preprocess "aa")) (docTerms (_preprocess ""))
      (docTerms (_preprocess "aa")) "aa" :=
    (normWeight_pos_iff false 500 _ _ _ "aa").2 (by decide)
  have hfil : (["aa"] : List String).filter
      (fun w => decide
        (normWeight false 500 (docTerms (_preprocess "")) (docTerms (_preprocess ""))
            (docTerms (_preprocess "aa")) w = 0 ∧
         0 < normWeight false 500 (docTerms (_preprocess "aa")) (docTerms (_preprocess ""))
            (docTerms (_preprocess "aa")) w)) = ["aa"] := by
    rw [List.filter_cons, if_pos (decide_eq_true ⟨hrw, hjw⟩)]
    rfl
  rw [hfil]
  rfl

/-- C6 witness: the absence part of the theorem applied to the term the
extractor returns on a concrete pair with an empty resume. -/
theorem c6_witness :
    "aa" ∈ get_missing_keywords "" "aa" 10 ∧
    termCount "aa" (docTerms (_preprocess "")) = 0 := by
  have hmem : "aa" ∈ get_missing_keywords "" "aa" 10 := by
    rw [missing_eval]
    exact List.mem_singleton.2 rfl
  exact ⟨hmem, (c6_missing_keywords_characterization "" "aa" 10).2 "aa" hmem⟩
